import Mathlib

/-!
Verification development for the ArduinoColab kernel.

Shallow embedding of the code-section store (`code/code_manager.py`), the
bridge (`bridge/bridge.py`), the local and remote backends
(`backends/local_backend.py`, `backends/remote_backend.py`) and the serial
channel (`bridge/serial_port.py`).  Python dictionaries are modelled as
insertion-ordered association lists, raised exceptions as an `Except` error
channel, and the process/filesystem environment as explicit records of
deterministic functions.
-/

namespace ArduinoColab

/-- Python exceptions that the modelled code can raise, by class and message. -/
inductive PyError
  | runtimeError (msg : String)
  | valueError (msg : String)
  | fileNotFoundError (msg : String)
  | notImplementedError (msg : String)
deriving DecidableEq, Repr

/-! ### Python dictionaries as insertion-ordered association lists -/

/-- Lookup in an insertion-ordered dictionary (first matching key). -/
def dictLookup {α : Type} : List (String × α) → String → Option α
  | [], _ => none
  | (k, v) :: rest, key => if k = key then some v else dictLookup rest key

/-- `d[key] = val` on a Python dict: replaces in place when the key exists,
appends otherwise (insertion order preserved, as CPython does). -/
def dictInsert {α : Type} : List (String × α) → String → α → List (String × α)
  | [], key, val => [(key, val)]
  | (k, v) :: rest, key, val =>
      if k = key then (k, val) :: rest else (k, v) :: dictInsert rest key val

/-- The keys of a dictionary, in insertion order. -/
def dictKeys {α : Type} (d : List (String × α)) : List String := d.map Prod.fst

/-! ### Python string primitives used by the code manager -/

/-- Whitespace characters stripped by Python's `str.strip()` (ASCII range). -/
def pyIsSpace (c : Char) : Bool :=
  c = ' ' || c = '\t' || c = '\n' || c = '\x0d' || c = '\x0b' || c = '\x0c'

/-- Python `str.strip()`: drops leading and trailing whitespace. -/
def pyStrip (s : String) : String :=
  ⟨((s.data.dropWhile pyIsSpace).reverse.dropWhile pyIsSpace).reverse⟩

/-- Split a character list on a separator character. -/
def splitOnChar (sep : Char) : List Char → List (List Char)
  | [] => [[]]
  | c :: rest =>
      match splitOnChar sep rest with
      | [] => [[c]]
      | g :: gs => if c = sep then [] :: g :: gs else (c :: g) :: gs

/-- Python `str.splitlines()` for `\n`-separated text: a trailing newline
produces no extra empty line, and `"".splitlines() == []`. -/
def pySplitlines (s : String) : List String :=
  let parts := (splitOnChar '\n' s.data).map (fun l => (⟨l⟩ : String))
  match parts.getLast? with
  | some "" => parts.dropLast
  | _ => parts

/-- Python `str.startswith(p)`. -/
def pyStartsWith (s p : String) : Bool := p.data.isPrefixOf s.data

/-! ### `code_manager.py`: the code-section store -/

/-- One section's cells: cell id to code fragment, insertion ordered. -/
abbrev CellMap := List (String × String)

/-- `self.sections`: section name to cell map. -/
abbrev SectionsDict := List (String × CellMap)

/-- Module constant `ALLOWED_SECTIONS` (also `valid_sections` in
`import_from_json`). -/
def validSections : List String := ["globals", "setup", "loop", "functions"]

/-- In-memory store of Arduino code sections (`ArduinoCodeManager`). -/
structure ArduinoCodeManager where
  sections : SectionsDict
deriving DecidableEq, Repr

namespace ArduinoCodeManager

/-- `default()`: the four empty sections, in declaration order. -/
def defaultManager : ArduinoCodeManager :=
  ⟨[("globals", []), ("setup", []), ("loop", []), ("functions", [])]⟩

/-- `clear()`: empties every existing section, keeping the keys. -/
def clear (m : ArduinoCodeManager) : ArduinoCodeManager :=
  ⟨m.sections.map (fun kv => (kv.1, ([] : CellMap)))⟩

/-- `add_code(section, cell_id, code)`: `ValueError` on an unknown section,
otherwise stores `code.strip()` under `cell_id` (upsert). -/
def add_code (m : ArduinoCodeManager) (sect cell_id code : String) :
    Except PyError ArduinoCodeManager :=
  match dictLookup m.sections sect with
  | none => .error (.valueError ("Unknown section: " ++ sect))
  | some cells =>
      .ok ⟨dictInsert m.sections sect (dictInsert cells cell_id (pyStrip code))⟩

/-- `get_section(section)`: the list of code fragments of a section, in cell
insertion order. -/
def get_section (m : ArduinoCodeManager) (sect : String) :
    Except PyError (List String) :=
  match dictLookup m.sections sect with
  | none => .error (.valueError ("Unknown section: " ++ sect))
  | some cells => .ok (cells.map Prod.snd)

/-- `generate()`: the full Arduino source text, assembled exactly as the
source builds its `lines` list and joins it with `"\n"`. -/
def generate (m : ArduinoCodeManager) : Except PyError String := do
  let globalsSec ← m.get_section "globals"
  let functionsSec ← m.get_section "functions"
  let setupSec ← m.get_section "setup"
  let loopSec ← m.get_section "loop"
  let lines : List String :=
    ["#include <Arduino.h>\n", "//**Global variables**\n"]
    ++ (if globalsSec.length > 0 then globalsSec else ["// No globals variables defined"])
    ++ ["\n", "//**Functions**\n"]
    ++ (if functionsSec.length > 0 then functionsSec else ["// No functions defined"])
    ++ ["\n", "//**Setup**\n", "void setup() \x7b"]
    ++ ((if setupSec.length > 0 then setupSec else ["//Setup code goes here"]).map (fun l => "\t" ++ l))
    ++ ["\x7d", "\n", "//**Loop**\n", "void loop() \x7b"]
    ++ ((if loopSec.length > 0 then loopSec else ["//Loop code goes here"]).map (fun l => "\t" ++ l))
    ++ ["\x7d", "\n"]
  return String.intercalate "\n" lines

/-- `export_as_json()`: returns `self.sections` directly. -/
def export_as_json (m : ArduinoCodeManager) : SectionsDict := m.sections

/-- `import_from_json(json_data)`: validates that every top-level key is a
known section, then replaces `self.sections` with the given dictionary (the
initial `clear()` of the source is overwritten by that assignment). -/
def import_from_json (m : ArduinoCodeManager) (json_data : SectionsDict) :
    Except PyError ArduinoCodeManager :=
  if (dictKeys json_data).all (fun k => validSections.contains k) then
    .ok ⟨json_data⟩
  else
    .error (.valueError "Invalid sections in JSON data.")

/-- Store a line into `sections[current_section][str(cell_id)]`
(the section key is always present: the store was just cleared). -/
def putLine (acc : SectionsDict) (sect : String) (cell_id : Nat) (line : String) :
    SectionsDict :=
  match dictLookup acc sect with
  | none => acc
  | some cells => dictInsert acc sect (dictInsert cells (toString cell_id) line)

/-- The line loop of `import_from_code`: current section, running cell id,
accumulated sections. -/
def importLines : List String → Option String → Nat → SectionsDict →
    Except PyError SectionsDict
  | [], _, _, acc => .ok acc
  | line :: rest, cur, cell_id, acc =>
      let sl := pyStrip line
      if sl = "" || sl = "\x7b" || sl = "\x7d" then
        importLines rest cur cell_id acc
      else if sl = "//**Global variables**" then
        if cur ≠ some "globals" then importLines rest (some "globals") 0 acc
        else importLines rest cur cell_id acc
      else if sl = "//**Functions**" then
        if cur ≠ some "functions" then importLines rest (some "functions") 0 acc
        else importLines rest cur cell_id acc
      else if sl = "//**Setup**" || pyStartsWith sl "void setup()" then
        if cur ≠ some "setup" then importLines rest (some "setup") 0 acc
        else importLines rest cur cell_id acc
      else if sl = "//**Loop**" || pyStartsWith sl "void loop()" then
        if cur ≠ some "loop" then importLines rest (some "loop") 0 acc
        else importLines rest cur cell_id acc
      else
        match cur with
        | some sect => importLines rest cur (cell_id + 1) (putLine acc sect cell_id sl)
        | none => .error (.valueError "Code does not contain any section or is incorrectly formatted.")

/-- `import_from_code(code)`: clears the store, then scans the lines,
switching sections on marker comments (or `void setup()`/`void loop()`
signatures) and numbering cells sequentially within each section. -/
def import_from_code (m : ArduinoCodeManager) (code : String) :
    Except PyError ArduinoCodeManager :=
  (importLines (pySplitlines code) none 0 (m.clear).sections).map
    (fun s => ⟨s⟩)

end ArduinoCodeManager

/-! ### `bridge/bridge.py` and `backends/local_backend.py` -/

/-- The board record the bridge and backends consult (`board/board.py`). -/
structure BoardRec where
  name : String
  fqbn : String
  port : Option String
deriving DecidableEq, Repr

/-- A completed subprocess (`subprocess.CompletedProcess`). -/
structure ProcResult where
  returncode : Int
  stdout : String
  stderr : String
deriving DecidableEq, Repr

/-- The deterministic environment a bridge call runs against:
`board_manager.require_board()` (none models the no-board `RuntimeError`),
the resolved CLI path (none models `FileNotFoundError` from `_resolve_cli`),
`subprocess.run` (none models the exception caught and re-raised), the
`os.path.abspath` resolution, and whether appending to the log file succeeds. -/
structure BridgeEnv where
  board : Option BoardRec
  cliPath : Option String
  run : List String → Option ProcResult
  abspath : String → String
  logWrite : Bool

/-- Bridge operation mode (`LOCAL_MODE` / `REMOTE_MODE`). -/
inductive BridgeMode
  | localMode
  | remoteMode
deriving DecidableEq, Repr

/-- The outcome of a bridge call together with the subprocess commands it
actually executed, in order. -/
structure CmdTrace (α : Type) where
  result : Except PyError α
  calls : List (List String)
deriving Repr

/-- Message of `board_manager.require_board()` when no board is selected
(the source text is Czech and quotes the board names; rendered plainly). -/
def requireBoardMsg : String := "No board is set. Call set_board(uno|nano)."

/-- Message raised when `board.port` is `None`. -/
def noPortMsg : String := "No serial port is set for the board. Use `%board serial` to set it."

/-- Message of the `RuntimeError` re-raised by `_append_log` on a write
failure (the source quotes the log path and appends the cause). -/
def logFailMsg (log_file : String) : String := "Failed to write to log file: " ++ log_file

/-- `Bridge._append_log`: any write failure is wrapped and re-raised as a
`RuntimeError`. -/
def append_log (env : BridgeEnv) (log_file : String) : Except PyError Unit :=
  if env.logWrite then .ok () else .error (.runtimeError (logFailMsg log_file))

/-- `Bridge.compile(sketch_path, log_file)`: remote mode raises
`NotImplementedError`; local mode requires a board with a port, builds
`[cli, "compile", abs(sketch_path), "-p", port, "-b", fqbn]`, raises on a
nonzero exit code, appends to the log on success when a log file is given,
and returns `True`. -/
def bridge_compile (env : BridgeEnv) (mode : BridgeMode) (sketch_path : String)
    (log_file : Option String) : CmdTrace Bool :=
  match mode with
  | .remoteMode => ⟨.error (.notImplementedError "Remote compile not implemented yet."), []⟩
  | .localMode =>
    match env.board with
    | none => ⟨.error (.runtimeError requireBoardMsg), []⟩
    | some b =>
      match b.port with
      | none => ⟨.error (.runtimeError noPortMsg), []⟩
      | some port =>
        match env.cliPath with
        | none => ⟨.error (.fileNotFoundError "arduino-cli not found"), []⟩
        | some cli =>
          let cmd := [cli, "compile", env.abspath sketch_path, "-p", port, "-b", b.fqbn]
          match env.run cmd with
          | none => ⟨.error (.runtimeError "Failed to run compile command"), [cmd]⟩
          | some res =>
            if res.returncode ≠ 0 then
              ⟨.error (.runtimeError ("Compile failed: " ++ res.stderr)), [cmd]⟩
            else
              match log_file with
              | some f =>
                  match append_log env f with
                  | .ok _ => ⟨.ok true, [cmd]⟩
                  | .error e => ⟨.error e, [cmd]⟩
              | none => ⟨.ok true, [cmd]⟩

/-- `Bridge.upload(sketch_path, log_file)`: remote mode raises
`NotImplementedError`; local mode first calls `self.compile(sketch_path)`
(without the log file), raises if that compile was not successful, then
requires the port, builds `[cli, "upload", abs(sketch_path), "-p", port,
"-b", fqbn]`, raises on a nonzero exit code, logs on success and returns
`True`. -/
def bridge_upload (env : BridgeEnv) (mode : BridgeMode) (sketch_path : String)
    (log_file : Option String) : CmdTrace Bool :=
  match mode with
  | .remoteMode => ⟨.error (.notImplementedError "Remote upload not implemented yet."), []⟩
  | .localMode =>
    let comp := bridge_compile env .localMode sketch_path none
    match comp.result with
    | .error e => ⟨.error e, comp.calls⟩
    | .ok ok =>
      if !ok then
        ⟨.error (.runtimeError "The code was not successfully compiled, upload failed."), comp.calls⟩
      else
        match env.board with
        | none => ⟨.error (.runtimeError requireBoardMsg), comp.calls⟩
        | some b =>
          match b.port with
          | none => ⟨.error (.runtimeError noPortMsg), comp.calls⟩
          | some port =>
            match env.cliPath with
            | none => ⟨.error (.fileNotFoundError "arduino-cli not found"), comp.calls⟩
            | some cli =>
              let cmd := [cli, "upload", env.abspath sketch_path, "-p", port, "-b", b.fqbn]
              match env.run cmd with
              | none => ⟨.error (.runtimeError "Failed to run upload command"), comp.calls ++ [cmd]⟩
              | some res =>
                if res.returncode ≠ 0 then
                  ⟨.error (.runtimeError ("Upload failed: " ++ res.stderr)), comp.calls ++ [cmd]⟩
                else
                  match log_file with
                  | some f =>
                      match append_log env f with
                      | .ok _ => ⟨.ok true, comp.calls ++ [cmd]⟩
                      | .error e => ⟨.error e, comp.calls ++ [cmd]⟩
                  | none => ⟨.ok true, comp.calls ++ [cmd]⟩

/-- `LocalBackend`'s uniform result dictionary `{status, stdout, stderr}`. -/
structure BackendResultD where
  status : Bool
  stdout : String
  stderr : String
deriving DecidableEq, Repr

/-- `LocalBackend.compile(board, sketch_source, extra_args)`: builds
`[cli, "compile", abs(sketch_source), "-b", fqbn] ++ extra_args` (no port),
runs it, and maps the exit code onto the `status` flag.  `cli` is the path
resolved at construction. -/
def local_backend_compile (cli : String) (env : BridgeEnv) (board : BoardRec)
    (sketch_source : String) (extra_args : List String) : CmdTrace BackendResultD :=
  let cmd := [cli, "compile", env.abspath sketch_source, "-b", board.fqbn] ++ extra_args
  match env.run cmd with
  | none => ⟨.error (.runtimeError "Failed to run CLI command"), [cmd]⟩
  | some res => ⟨.ok ⟨res.returncode = 0, res.stdout, res.stderr⟩, [cmd]⟩

/-- `LocalBackend.upload(board, sketch_source, extra_args)`: requires
`board.port`, builds `[cli, "upload", abs(src), "-p", port, "-b", fqbn] ++
extra_args`, and maps the exit code onto `status`.  It performs no compile
step of its own. -/
def local_backend_upload (cli : String) (env : BridgeEnv) (board : BoardRec)
    (sketch_source : String) (extra_args : List String) : CmdTrace BackendResultD :=
  match board.port with
  | none => ⟨.error (.runtimeError noPortMsg), []⟩
  | some port =>
    let cmd := [cli, "upload", env.abspath sketch_source, "-p", port, "-b", board.fqbn] ++ extra_args
    match env.run cmd with
    | none => ⟨.error (.runtimeError "Failed to run CLI command"), [cmd]⟩
    | some res => ⟨.ok ⟨res.returncode = 0, res.stdout, res.stderr⟩, [cmd]⟩

/-! ### `backends/remote_backend.py`: sketch payload preparation

The in-memory zip archive is modelled at the level of its member list: each
`zf.write(abs_path, rel_path)` adds one member whose name is the path of the
file relative to the sketch directory (modelled as its list of components)
and whose content is the file's bytes.  DEFLATE compression and the base64
transport encoding are both injective and are inverted by the server before
use, so the archive is represented by the member list itself. -/

/-- A filesystem node: a regular file with its bytes, or a directory. -/
inductive FSNode
  | file (name : String) (content : List Nat)
  | dir (name : String) (children : List FSNode)
deriving Repr

/-- The `os.walk` collection inside `_zip_directory`: every regular file
below the root, keyed by its relative path (as components, root-relative). -/
def walkPaths (pre : List String) : List FSNode → List (List String × List Nat)
  | [] => []
  | .file a c :: rest => (pre ++ [a], c) :: walkPaths pre rest
  | .dir a cs :: rest => walkPaths (pre ++ [a]) cs ++ walkPaths pre rest

/-- `_zip_directory(dir_path)`: the member list of the produced archive. -/
def zip_directory (children : List FSNode) : List (List String × List Nat) :=
  walkPaths [] children

/-- What a relative path resolves to below a directory: `FileAt p ns c` holds
when following the components of `p` from the children `ns` reaches a regular
file with content `c`. -/
def FileAt : List String → List FSNode → List Nat → Prop
  | [], _, _ => False
  | [a], ns, c => FSNode.file a c ∈ ns
  | a :: b :: p, ns, c => ∃ cs, FSNode.dir a cs ∈ ns ∧ FileAt (b :: p) cs c

/-- What the sketch-source path points at in the filesystem. -/
inductive SketchSource
  | missing
  | directory (children : List FSNode)
  | sketchFile (content : List Nat)

/-- A value of the payload dictionary: a base64-encoded zip archive or a
base64-encoded single file. -/
inductive PayloadVal
  | zipB64 (members : List (List String × List Nat))
  | rawB64 (content : List Nat)

/-- `RemoteBackend._prepare_sketch_payload(sketch_source)`:
`FileNotFoundError` when the path does not exist; a directory is zipped and
sent under the single key `sketch_zip_b64`; a regular file is read and sent
under the single key `sketch_b64`. -/
def prepare_sketch_payload (src : SketchSource) :
    Except PyError (List (String × PayloadVal)) :=
  match src with
  | .missing => .error (.fileNotFoundError "Sketch source does not exist.")
  | .directory children => .ok [("sketch_zip_b64", .zipB64 (zip_directory children))]
  | .sketchFile content => .ok [("sketch_b64", .rawB64 content)]

/-! ### `bridge/serial_port.py`: the serial channel

The codec string held in `self.encoding` is modelled by the codecs the
kernel actually configures (`utf-8` default, plus the `ascii`/`latin-1`
family used as fallback); byte values are `Nat` below 256. -/

/-- A text codec, standing for the `self.encoding` string. -/
inductive Codec
  | ascii
  | latin1
  | utf8
deriving DecidableEq, Repr

/-- Encode one character, `none` when the codec cannot represent it. -/
def encodeChar : Codec → Char → Option (List Nat)
  | .ascii, ch => if ch.toNat < 128 then some [ch.toNat] else none
  | .latin1, ch => if ch.toNat < 256 then some [ch.toNat] else none
  | .utf8, ch =>
      let n := ch.toNat
      if n < 0x80 then some [n]
      else if n < 0x800 then
        some [0xC0 ||| (n >>> 6), 0x80 ||| (n &&& 0x3F)]
      else if n < 0x10000 then
        some [0xE0 ||| (n >>> 12), 0x80 ||| ((n >>> 6) &&& 0x3F), 0x80 ||| (n &&& 0x3F)]
      else
        some [0xF0 ||| (n >>> 18), 0x80 ||| ((n >>> 12) &&& 0x3F),
              0x80 ||| ((n >>> 6) &&& 0x3F), 0x80 ||| (n &&& 0x3F)]

/-- Python `str.encode(codec, errors="ignore")`: unencodable characters are
dropped from the output. -/
def encodeIgnore (codec : Codec) (s : String) : List Nat :=
  (s.data.map (fun ch => (encodeChar codec ch).getD [])).flatten

/-- Python `str.encode(codec, errors="replace")`: unencodable characters are
replaced by `'?'` (byte 63). -/
def encodeReplace (codec : Codec) (s : String) : List Nat :=
  (s.data.map (fun ch => (encodeChar codec ch).getD [63])).flatten

/-- Whether a byte is a UTF-8 continuation byte `0b10xxxxxx`. -/
def isCont (b : Nat) : Bool := 0x80 ≤ b && b < 0xC0

/-- Python `bytes.decode("utf-8", errors="replace")`: well-formed sequences
decode to their code point, malformed bytes become U+FFFD. -/
def utf8DecodeReplace : List Nat → List Char
  | [] => []
  | b :: rest =>
      if b < 0x80 then Char.ofNat b :: utf8DecodeReplace rest
      else if 0xC2 ≤ b && b ≤ 0xDF then
        match rest with
        | b2 :: rest2 =>
            if isCont b2 then
              Char.ofNat (((b - 0xC0) <<< 6) + (b2 - 0x80)) :: utf8DecodeReplace rest2
            else '�' :: utf8DecodeReplace (b2 :: rest2)
        | [] => ['�']
      else if 0xE0 ≤ b && b ≤ 0xEF then
        match rest with
        | b2 :: b3 :: rest3 =>
            if isCont b2 && isCont b3 then
              Char.ofNat (((b - 0xE0) <<< 12) + ((b2 - 0x80) <<< 6) + (b3 - 0x80)) ::
                utf8DecodeReplace rest3
            else '�' :: utf8DecodeReplace (b2 :: b3 :: rest3)
        | _ => ['�']
      else if 0xF0 ≤ b && b ≤ 0xF4 then
        match rest with
        | b2 :: b3 :: b4 :: rest4 =>
            if isCont b2 && isCont b3 && isCont b4 then
              Char.ofNat (((b - 0xF0) <<< 18) + ((b2 - 0x80) <<< 12) +
                ((b3 - 0x80) <<< 6) + (b4 - 0x80)) :: utf8DecodeReplace rest4
            else '�' :: utf8DecodeReplace (b2 :: b3 :: b4 :: rest4)
        | _ => ['�']
      else '�' :: utf8DecodeReplace rest

/-- Python `bytes.decode(codec, errors="replace")`. -/
def decodeReplace (codec : Codec) (raw : List Nat) : String :=
  match codec with
  | .ascii => ⟨raw.map (fun b => if b < 128 then Char.ofNat b else '�')⟩
  | .latin1 => ⟨raw.map (fun b => Char.ofNat (b % 256))⟩
  | .utf8 => ⟨utf8DecodeReplace raw⟩

/-- Python `str.rstrip("\r\n")`. -/
def rstripCRLF (s : String) : String :=
  ⟨(s.data.reverse.dropWhile (fun c => c = '\x0d' || c = '\n')).reverse⟩

/-- The live pyserial handle: its open flag, the script of chunks the device
will hand to successive `readline()` calls (an empty chunk is a timeout),
the bytes written so far, and whether the device I/O calls succeed (a
`false` flag models the OS raising inside pyserial). -/
structure SerHandle where
  isOpen : Bool
  pending : List (List Nat)
  written : List Nat
  readOk : Bool
  writeOk : Bool
deriving DecidableEq, Repr

/-- `SerialPort`: configuration plus the optional internal handle `_ser`.
The numeric `baudrate`/`timeout` fields are forwarded to the device and
never branched on, so the timeout is kept as an opaque `Nat`. -/
structure SerialPort where
  port : Option String
  baudrate : Nat
  timeout : Nat
  encoding : Codec
  autostrip : Bool
  ser : Option SerHandle
deriving DecidableEq, Repr

namespace SerialPort

/-- `close()`: releases the handle if held; always resets `_ser` to `None`.
(The pyserial `close()` of an open handle does not raise in this model;
the `finally` clause clears the handle either way.) -/
def close (s : SerialPort) : SerialPort := { s with ser := none }

/-- `readline()`: returns `None` when the handle is absent or closed; a
device failure raises; an empty read (timeout) returns `None`; otherwise the
chunk is decoded with `errors="replace"` and, with `autostrip` set, stripped
of trailing CR/LF. -/
def readline (s : SerialPort) : Except PyError (SerialPort × Option String) :=
  match s.ser with
  | none => .ok (s, none)
  | some h =>
    if !h.isOpen then .ok (s, none)
    else if !h.readOk then .error (.runtimeError "Failed to read line from serial port")
    else
      match h.pending with
      | [] => .ok (s, none)
      | raw :: rest =>
        let s' := { s with ser := some { h with pending := rest } }
        if raw = [] then .ok (s', none)
        else
          let txt := decodeReplace s.encoding raw
          .ok (s', some (if s.autostrip then rstripCRLF txt else txt))

/-- Message of the `RuntimeError` the spec names `NotOpenError`. -/
def notOpenMsg : String := "Serial port is not open. Call open() first."

/-- `write(data, append_newline)`: raises when the handle is absent or
closed; otherwise appends `"\n"` unless suppressed, encodes with
`errors="ignore"`, and writes the payload (a device failure raises). -/
def write (s : SerialPort) (data : String) (append_newline : Bool) :
    Except PyError SerialPort :=
  match s.ser with
  | none => .error (.runtimeError notOpenMsg)
  | some h =>
    if !h.isOpen then .error (.runtimeError notOpenMsg)
    else
      let payload := encodeIgnore s.encoding (data ++ (if append_newline then "\n" else ""))
      if h.writeOk then .ok { s with ser := some { h with written := h.written ++ payload } }
      else .error (.runtimeError "Failed to write to serial port")

end SerialPort

/-! ### Concrete sample states used by counterexamples and witnesses -/

/-- A store holding one single-line fragment in each of the four sections. -/
def sampleStore : ArduinoCodeManager :=
  ⟨[("globals", [("0", "int x = 1;")]), ("setup", [("0", "foo();")]),
    ("loop", [("0", "bar();")]), ("functions", [("0", "int f();")])]⟩

/-- A selected board with a port. -/
def sampleBoard : BoardRec := ⟨"uno", "arduino:avr:uno", some "COM3"⟩

/-- An environment whose compile subprocess exits with code 1. -/
def envCompileFails : BridgeEnv :=
  ⟨some sampleBoard, some "arduino-cli", fun _ => some ⟨1, "", "boom"⟩, id, true⟩

/-- An environment whose subprocesses exit with code 0. -/
def envOkRun : BridgeEnv :=
  ⟨some sampleBoard, some "arduino-cli", fun _ => some ⟨0, "done", ""⟩, id, true⟩

/-- `envOkRun`, but appending to the log file fails. -/
def envLogFail : BridgeEnv :=
  ⟨some sampleBoard, some "arduino-cli", fun _ => some ⟨0, "done", ""⟩, id, false⟩

/-- A serial channel that was never opened (`_ser is None`). -/
def closedPort : SerialPort := ⟨some "COM3", 115200, 1, .utf8, true, none⟩

/-- A live handle that is open and accepts reads and writes. -/
def openHandle : SerHandle := ⟨true, [], [], true, true⟩

/-- An open serial channel configured with the `ascii` codec. -/
def asciiPort : SerialPort := ⟨some "COM3", 115200, 1, .ascii, true, some openHandle⟩

/-- A handle whose device side has been closed (`is_open` false). -/
def staleHandle : SerHandle := ⟨false, [[72, 105]], [], true, true⟩

/-- A channel still holding a handle that is no longer open. -/
def stalePort : SerialPort := ⟨some "COM3", 115200, 1, .utf8, true, some staleHandle⟩

/-- The channel state after a successful `write` of `payload`. -/
def afterWrite (s : SerialPort) (hd : SerHandle) (payload : List Nat) : SerialPort :=
  { s with ser := some { hd with written := hd.written ++ payload } }

/-- The written bytes of a `write` outcome, when it succeeded. -/
def writtenBytes (r : Except PyError SerialPort) : Option (List Nat) :=
  match r with
  | .ok s => s.ser.map (fun h => h.written)
  | .error _ => none

/-! ## Supporting lemmas -/

theorem dictLookup_insert_self {α : Type} (d : List (String × α)) (k : String) (v : α) :
    dictLookup (dictInsert d k v) k = some v := by
  induction d with
  | nil => simp [dictInsert, dictLookup]
  | cons kv rest ih =>
      obtain ⟨k1, v1⟩ := kv
      by_cases h : k1 = k <;> simp [dictInsert, dictLookup, h, ih]

theorem dictInsert_insert {α : Type} (d : List (String × α)) (k : String) (v v' : α) :
    dictInsert (dictInsert d k v) k v' = dictInsert d k v' := by
  induction d with
  | nil => simp [dictInsert]
  | cons kv rest ih =>
      obtain ⟨k1, v1⟩ := kv
      by_cases h : k1 = k <;> simp [dictInsert, h, ih]

theorem count_snd_dictInsert (d : List (String × String)) (k v : String)
    (hnd : (dictKeys d).Nodup)
    (hfresh : ∀ kv ∈ d, kv.1 ≠ k → kv.2 ≠ v) :
    ((dictInsert d k v).map Prod.snd).count v = 1 := by
  induction d with
  | nil => simp [dictInsert]
  | cons kv rest ih =>
      obtain ⟨k1, v1⟩ := kv
      simp only [dictKeys, List.map_cons, List.nodup_cons, List.mem_map] at hnd
      by_cases h : k1 = k
      · subst h
        have hzero : (rest.map Prod.snd).count v = 0 := by
          refine List.count_eq_zero.mpr ?_
          intro hmem
          rcases List.mem_map.mp hmem with ⟨⟨k2, v2⟩, hmem2, hv2⟩
          have hk2 : k2 ≠ k1 := by
            intro hkeq
            exact hnd.1 ⟨(k2, v2), hmem2, hkeq⟩
          exact hfresh (k2, v2) (List.mem_cons_of_mem _ hmem2) hk2 hv2
        simp [dictInsert, List.count_cons, hzero]
      · have hv1 : v1 ≠ v := hfresh (k1, v1) (List.mem_cons_self _ _) h
        have ihr := ih hnd.2 (fun kv hm hk => hfresh kv (List.mem_cons_of_mem _ hm) hk)
        simp [dictInsert, h, List.count_cons, ihr, hv1]

theorem fileAt_nil (p : List String) (c : List Nat) : ¬ FileAt p [] c := by
  match p with
  | [] => simp [FileAt]
  | [a] => simp [FileAt]
  | a :: b :: q => simp [FileAt]

theorem fileAt_cons_of (p : List String) (n : FSNode) (ns : List FSNode) (c : List Nat)
    (h : FileAt p ns c) : FileAt p (n :: ns) c := by
  match p with
  | [] => exact absurd h (by simp [FileAt])
  | [a] =>
      simp only [FileAt] at h ⊢
      exact List.mem_cons_of_mem _ h
  | a :: b :: q =>
      simp only [FileAt] at h ⊢
      obtain ⟨cs, hmem, hf⟩ := h
      exact ⟨cs, List.mem_cons_of_mem _ hmem, hf⟩

theorem mem_walkPaths (q : List String) (c : List Nat) :
    ∀ (pre : List String) (ns : List FSNode),
    (q, c) ∈ walkPaths pre ns ↔ ∃ p, q = pre ++ p ∧ FileAt p ns c := by
  intro pre ns
  induction pre, ns using walkPaths.induct with
  | case1 pre =>
      simp only [walkPaths, List.not_mem_nil, false_iff]
      rintro ⟨p, hq, hf⟩
      exact fileAt_nil p c hf
  | case2 pre a ct rest ih =>
      simp only [walkPaths]
      constructor
      · intro h
        rcases List.mem_cons.mp h with heq | hmem
        · injection heq with h1 h2
          subst h1; subst h2
          exact ⟨[a], rfl, by simp [FileAt]⟩
        · rcases ih.mp hmem with ⟨p, hq, hf⟩
          exact ⟨p, hq, fileAt_cons_of p _ rest c hf⟩
      · rintro ⟨p, hq, hf⟩
        match p, hf with
        | [], hf => exact absurd hf (by simp [FileAt])
        | [b], hf =>
            simp only [FileAt] at hf
            rcases List.mem_cons.mp hf with heq | hmem
            · injection heq with h1 h2
              subst h1; subst h2; subst hq
              exact List.mem_cons_self _ _
            · exact List.mem_cons_of_mem _ (ih.mpr ⟨[b], hq, hmem⟩)
        | b :: b2 :: p2, hf =>
            simp only [FileAt] at hf
            obtain ⟨cs, hmem, hrec⟩ := hf
            rcases List.mem_cons.mp hmem with heq | hmem2
            · exact absurd heq (by simp)
            · refine List.mem_cons_of_mem _ (ih.mpr ⟨b :: b2 :: p2, hq, ?_⟩)
              simp only [FileAt]
              exact ⟨cs, hmem2, hrec⟩
  | case3 pre a cs rest ih1 ih2 =>
      constructor
      · intro h
        rcases List.mem_append.mp (by simpa [walkPaths] using h) with hl | hr
        · rcases ih1.mp hl with ⟨p, hq, hf⟩
          match p, hf with
          | [], hf => exact absurd hf (by simp [FileAt])
          | b :: p2, hf =>
              refine ⟨a :: b :: p2, by simpa using hq, ?_⟩
              simp only [FileAt]
              exact ⟨cs, List.mem_cons_self _ _, hf⟩
        · rcases ih2.mp hr with ⟨p, hq, hf⟩
          exact ⟨p, hq, fileAt_cons_of p _ rest c hf⟩
      · rintro ⟨p, hq, hf⟩
        simp only [walkPaths, List.mem_append]
        match p, hf with
        | [], hf => exact absurd hf (by simp [FileAt])
        | [b], hf =>
            simp only [FileAt] at hf
            rcases List.mem_cons.mp hf with heq | hmem
            · exact absurd heq (by simp)
            · exact Or.inr (ih2.mpr ⟨[b], hq, hmem⟩)
        | b :: b2 :: p2, hf =>
            simp only [FileAt] at hf
            obtain ⟨cs2, hmem, hrec⟩ := hf
            rcases List.mem_cons.mp hmem with heq | hmem2
            · injection heq with h1 h2
              subst h1; subst h2
              refine Or.inl (ih1.mpr ⟨b2 :: p2, ?_, hrec⟩)
              simp [hq]
            · refine Or.inr (ih2.mpr ⟨b :: b2 :: p2, hq, ?_⟩)
              simp only [FileAt]
              exact ⟨cs2, hmem2, hrec⟩

/-! ## Claim theorems -/

/-- C5: for an existing sketch source, payload preparation emits exactly one
payload key: a directory is zip-archived with exactly the files present
under it (no extras, no omissions) under `sketch_zip_b64`; a single file is
sent as its bytes under `sketch_b64`. -/
theorem prepare_sketch_payload_spec (children : List FSNode) (content : List Nat) :
    (∃ members, prepare_sketch_payload (.directory children)
        = .ok [("sketch_zip_b64", PayloadVal.zipB64 members)] ∧
      ∀ p c, ((p, c) ∈ members ↔ FileAt p children c)) ∧
    prepare_sketch_payload (.sketchFile content)
      = .ok [("sketch_b64", PayloadVal.rawB64 content)] ∧
    prepare_sketch_payload .missing
      = .error (.fileNotFoundError "Sketch source does not exist.") := by
  refine ⟨⟨zip_directory children, rfl, ?_⟩, rfl, rfl⟩
  intro p c
  simpa [zip_directory] using mem_walkPaths p c [] children

theorem bridge_compile_calls_compile (env : BridgeEnv) (p : String) (log : Option String) :
    ∀ cmd ∈ (bridge_compile env .localMode p log).calls, cmd[1]? = some "compile" := by
  obtain ⟨board, cliPath, run, abspath, logWrite⟩ := env
  cases board with
  | none => simp [bridge_compile]
  | some b =>
    cases hport : b.port with
    | none => simp [bridge_compile, hport]
    | some port =>
      cases cliPath with
      | none => simp [bridge_compile, hport]
      | some cli =>
        simp only [bridge_compile, hport]
        cases hrun : run [cli, "compile", abspath p, "-p", port, "-b", b.fqbn] with
        | none => simp [hrun]
        | some res =>
            by_cases hrc : res.returncode = 0 <;>
              cases log <;>
                simp_all [append_log] <;>
                  split <;> simp

/-- C1 counterexample: with a concrete environment whose compile subprocess
exits with code 1, `Bridge.upload` raises (it propagates the `RuntimeError`
of the failed compile step) instead of returning a failure result, and only
the compile command is ever executed. -/
theorem bridge_upload_raises_on_compile_failure :
    (bridge_upload envCompileFails .localMode "sk" none).result
      = .error (.runtimeError ("Compile failed: boom")) ∧
    (bridge_upload envCompileFails .localMode "sk" none).calls
      = [["arduino-cli", "compile", "sk", "-p", "COM3", "-b", "arduino:avr:uno"]] :=
  ⟨rfl, rfl⟩

/-- C1 (amended): in local mode `Bridge.upload` always runs the compile step
first; when that step reports failure it aborts by raising (the compile step
itself raises, and upload propagates the error) without ever invoking an
upload command; only on compile success does it invoke the upload command
after the compile command. -/
theorem bridge_upload_compiles_first (env : BridgeEnv) (p : String) (log : Option String) :
    (∀ e, (bridge_compile env .localMode p none).result = .error e →
      (bridge_upload env .localMode p log).result = .error e ∧
      (bridge_upload env .localMode p log).calls
        = (bridge_compile env .localMode p none).calls ∧
      ∀ cmd ∈ (bridge_upload env .localMode p log).calls, cmd[1]? = some "compile") ∧
    ((bridge_compile env .localMode p none).result = .ok true →
      ∃ cli port fqbn,
        (bridge_upload env .localMode p log).calls
          = (bridge_compile env .localMode p none).calls
            ++ [[cli, "upload", env.abspath p, "-p", port, "-b", fqbn]]) := by
  constructor
  · intro e he
    refine ⟨?_, ?_, ?_⟩
    · simp [bridge_upload, he]
    · simp [bridge_upload, he]
    · have hcalls : (bridge_upload env .localMode p log).calls
          = (bridge_compile env .localMode p none).calls := by
        simp [bridge_upload, he]
      rw [hcalls]
      exact bridge_compile_calls_compile env p none
  · intro hok
    obtain ⟨board, cliPath, run, abspath, logWrite⟩ := env
    cases board with
    | none => simp [bridge_compile] at hok
    | some b =>
      cases hport : b.port with
      | none => simp [bridge_compile, hport] at hok
      | some port =>
        cases cliPath with
        | none => simp [bridge_compile, hport] at hok
        | some cli =>
          cases hrun : run [cli, "compile", abspath p, "-p", port, "-b", b.fqbn] with
          | none => simp [bridge_compile, hport, hrun] at hok
          | some res =>
              by_cases hrc : res.returncode = 0
              · refine ⟨cli, port, b.fqbn, ?_⟩
                simp only [bridge_upload, bridge_compile, hport, hrun]
                cases hrun2 : run [cli, "upload", abspath p, "-p", port, "-b", b.fqbn] with
                | none => simp [hrun2, hrc]
                | some res2 =>
                    by_cases hrc2 : res2.returncode = 0 <;>
                      cases log <;> simp_all [append_log] <;> split <;> simp
              · simp [bridge_compile, hport, hrun, hrc] at hok

/-- C1 witness: the compile-success path of the sequencing theorem at a
concrete environment, and the compile-failure path at another. -/
theorem bridge_upload_compiles_first_witness :
    ((bridge_compile envOkRun .localMode "sk" none).result = .ok true →
      ∃ cli port fqbn,
        (bridge_upload envOkRun .localMode "sk" none).calls
          = (bridge_compile envOkRun .localMode "sk" none).calls
            ++ [[cli, "upload", envOkRun.abspath "sk", "-p", port, "-b", fqbn]]) ∧
    (bridge_compile envOkRun .localMode "sk" none).result = .ok true :=
  ⟨(bridge_upload_compiles_first envOkRun "sk" none).2, rfl⟩

theorem bridge_compile_port_in_calls (env : BridgeEnv) (p : String) (log : Option String)
    (b : BoardRec) (port : String) (hb : env.board = some b) (hport : b.port = some port) :
    ∀ cmd ∈ (bridge_compile env .localMode p log).calls, "-p" ∈ cmd ∧ port ∈ cmd := by
  obtain ⟨board, cliPath, run, abspath, logWrite⟩ := env
  simp only at hb
  subst hb
  cases cliPath with
  | none => simp [bridge_compile, hport]
  | some cli =>
      simp only [bridge_compile, hport]
      cases hrun : run [cli, "compile", abspath p, "-p", port, "-b", b.fqbn] with
      | none => simp [hrun]
      | some res =>
          by_cases hrc : res.returncode = 0 <;>
            cases log <;>
              simp_all [append_log] <;>
                split <;> simp

/-- C6 counterexample: at a concrete environment, the command vector built
by the cited `Bridge.compile` contains `-p` and the port, and the same call
with the port unset raises — so for `Bridge.compile` the port is required
and does appear in the compile command. -/
theorem bridge_compile_uses_port :
    (bridge_compile envOkRun .localMode "sk" none).calls
      = [["arduino-cli", "compile", "sk", "-p", "COM3", "-b", "arduino:avr:uno"]] ∧
    "-p" ∈ ["arduino-cli", "compile", "sk", "-p", "COM3", "-b", "arduino:avr:uno"] ∧
    (bridge_compile ⟨some ⟨"uno", "arduino:avr:uno", none⟩, some "arduino-cli",
        fun _ => some ⟨0, "done", ""⟩, id, true⟩ .localMode "sk" none).result
      = .error (.runtimeError noPortMsg) :=
  ⟨rfl, by decide, rfl⟩

/-- C6 (amended): `LocalBackend.compile` builds exactly
`[tool, "compile", absSketchDir, "-b", fqbn, ...extraArgs]` — the port is
neither required (the outcome is independent of it) nor present in the
vector — and reports success exactly when the subprocess exits zero;
`Bridge.compile`, by contrast, requires `board.port` and inserts
`"-p", port` into its compile command. -/
theorem local_backend_compile_spec (cli : String) (env : BridgeEnv) (b : BoardRec)
    (src : String) (extra : List String) (res : ProcResult)
    (hrun : env.run ([cli, "compile", env.abspath src, "-b", b.fqbn] ++ extra) = some res) :
    (local_backend_compile cli env b src extra).calls
      = [[cli, "compile", env.abspath src, "-b", b.fqbn] ++ extra] ∧
    (∀ port2, local_backend_compile cli env ⟨b.name, b.fqbn, port2⟩ src extra
        = local_backend_compile cli env b src extra) ∧
    (local_backend_compile cli env b src extra).result
      = .ok ⟨decide (res.returncode = 0), res.stdout, res.stderr⟩ ∧
    (∀ b2 port2, env.board = some b2 → b2.port = some port2 →
      ∀ cmd ∈ (bridge_compile env .localMode src none).calls, "-p" ∈ cmd) := by
  have hrun2 : env.run (cli :: "compile" :: env.abspath src :: "-b" :: b.fqbn :: extra)
      = some res := by simpa using hrun
  refine ⟨?_, fun port2 => rfl, ?_, ?_⟩
  · simp [local_backend_compile, hrun2]
  · simp [local_backend_compile, hrun2]
  · intro b2 port2 hb2 hport2 cmd hcmd
    exact (bridge_compile_port_in_calls env src none b2 port2 hb2 hport2 cmd hcmd).1

/-- C6 witness: the port-free command vector at a concrete call. -/
theorem local_backend_compile_spec_witness :
    envOkRun.run ["arduino-cli", "compile", "sk", "-b", "arduino:avr:uno"]
      = some ⟨0, "done", ""⟩ ∧
    (local_backend_compile "arduino-cli" envOkRun sampleBoard "sk" []).calls
      = [["arduino-cli", "compile", "sk", "-b", "arduino:avr:uno"]] :=
  ⟨rfl, (local_backend_compile_spec "arduino-cli" envOkRun sampleBoard "sk" []
      ⟨0, "done", ""⟩ rfl).1⟩

/-- C7 counterexample: two environments identical except that writing the
log file fails in one — the compile subprocess succeeds in both, yet the
caller sees a raised `RuntimeError` in place of the success result when the
log write fails. -/
theorem log_failure_alters_result :
    (bridge_compile envLogFail .localMode "sk" (some "build.log")).result
      = .error (.runtimeError (logFailMsg "build.log")) ∧
    (bridge_compile ⟨envLogFail.board, envLogFail.cliPath, envLogFail.run,
        envLogFail.abspath, true⟩ .localMode "sk" (some "build.log")).result
      = .ok true :=
  ⟨rfl, rfl⟩

/-- C7 (amended): a failed compile is unaffected by logging (its error is
raised before the log step is reached), but when the operation succeeds and
a log file is given, a failure to write the log raises the `RuntimeError`
of `_append_log`, replacing the success result seen by the caller. -/
theorem append_log_failure_semantics (env : BridgeEnv) (p f : String)
    (b : BoardRec) (port cli : String) (res : ProcResult)
    (hb : env.board = some b) (hport : b.port = some port) (hcli : env.cliPath = some cli)
    (hrun : env.run [cli, "compile", env.abspath p, "-p", port, "-b", b.fqbn] = some res) :
    (res.returncode ≠ 0 →
      (bridge_compile env .localMode p (some f)).result
        = .error (.runtimeError ("Compile failed: " ++ res.stderr))) ∧
    (res.returncode = 0 → env.logWrite = false →
      (bridge_compile env .localMode p (some f)).result
        = .error (.runtimeError (logFailMsg f))) ∧
    (res.returncode = 0 → env.logWrite = true →
      (bridge_compile env .localMode p (some f)).result = .ok true) := by
  refine ⟨fun hrc => ?_, fun hrc hlw => ?_, fun hrc hlw => ?_⟩
  · simp [bridge_compile, hb, hport, hcli, hrun, hrc]
  · simp [bridge_compile, hb, hport, hcli, hrun, hrc, append_log, hlw]
  · simp [bridge_compile, hb, hport, hcli, hrun, hrc, append_log, hlw]

/-- C7 witness: the masking path of the logging theorem at a concrete
environment whose log write fails. -/
theorem append_log_failure_semantics_witness :
    envLogFail.logWrite = false ∧
    (bridge_compile envLogFail .localMode "sk" (some "log.txt")).result
      = .error (.runtimeError (logFailMsg "log.txt")) :=
  ⟨rfl, (append_log_failure_semantics envLogFail "sk" "log.txt" sampleBoard "COM3"
      "arduino-cli" ⟨0, "done", ""⟩ rfl rfl rfl rfl).2.1 rfl rfl⟩

/-- C8: `write` on a channel that is not open — never opened or already
closed — raises `NotOpenError` (the `RuntimeError` with the not-open
message), for every text and newline flag. -/
theorem write_not_open_raises (s : SerialPort) (data : String) (nl : Bool)
    (h : s.ser = none ∨ ∃ hd, s.ser = some hd ∧ hd.isOpen = false) :
    SerialPort.write s data nl = .error (.runtimeError SerialPort.notOpenMsg) := by
  rcases h with h | ⟨hd, hser, hopen⟩
  · simp [SerialPort.write, h]
  · simp [SerialPort.write, hser, hopen]

/-- C8 witness: the not-open failure on a never-opened channel and on a
channel whose handle is no longer open. -/
theorem write_not_open_raises_witness :
    closedPort.ser = none ∧
    SerialPort.write closedPort "hello" true = .error (.runtimeError SerialPort.notOpenMsg) ∧
    SerialPort.write stalePort "hello" false = .error (.runtimeError SerialPort.notOpenMsg) :=
  ⟨rfl, write_not_open_raises closedPort "hello" true (Or.inl rfl),
    write_not_open_raises stalePort "hello" false (Or.inr ⟨staleHandle, rfl, rfl⟩)⟩

/-- C9 counterexample: on an open ascii channel, writing `é` produces the
payload `[10]` — the unencodable character is dropped (`errors="ignore"`),
not replaced: the replace semantics the claim states would produce
`[63, 10]`. -/
theorem write_drops_unencodable :
    writtenBytes (SerialPort.write asciiPort "é" true) = some [10] ∧
    encodeReplace Codec.ascii ("é" ++ "\n") = [63, 10] ∧
    writtenBytes (SerialPort.write asciiPort "é" true)
      ≠ some (encodeReplace Codec.ascii ("é" ++ "\n")) :=
  ⟨rfl, rfl, by decide⟩

/-- C9 (amended): on every open channel, `write` appends `\n` unless
suppressed and encodes with the configured encoding such that unencodable
characters are dropped (`errors="ignore"`) rather than causing a failure. -/
theorem write_encodes_ignore (s : SerialPort) (hd : SerHandle) (data : String) (nl : Bool)
    (hser : s.ser = some hd) (hopen : hd.isOpen = true) (hwr : hd.writeOk = true) :
    SerialPort.write s data nl
      = .ok (afterWrite s hd (encodeIgnore s.encoding (data ++ (if nl then "\n" else "")))) := by
  simp [SerialPort.write, afterWrite, hser, hopen, hwr]

/-- C9 witness: the encode-and-append behaviour at a concrete open channel. -/
theorem write_encodes_ignore_witness :
    asciiPort.ser = some openHandle ∧ openHandle.isOpen = true ∧ openHandle.writeOk = true ∧
    SerialPort.write asciiPort "hi" true
      = .ok (afterWrite asciiPort openHandle (encodeIgnore Codec.ascii ("hi" ++ "\n"))) :=
  ⟨rfl, rfl, rfl, write_encodes_ignore asciiPort openHandle "hi" true rfl rfl rfl⟩

/-- C10: `readline` on a channel that is not open — never opened or already
closed — returns the no-data result `None` instead of raising, unlike
`write`, which raises. -/
theorem readline_not_open_returns_none (s : SerialPort)
    (h : s.ser = none ∨ ∃ hd, s.ser = some hd ∧ hd.isOpen = false) :
    SerialPort.readline s = .ok (s, none) := by
  rcases h with h | ⟨hd, hser, hopen⟩
  · simp [SerialPort.readline, h]
  · simp [SerialPort.readline, hser, hopen]

/-- C10 witness: the silent `None` on a never-opened channel and on one
holding a closed handle with pending device data. -/
theorem readline_not_open_returns_none_witness :
    closedPort.ser = none ∧
    SerialPort.readline closedPort = .ok (closedPort, none) ∧
    SerialPort.readline stalePort = .ok (stalePort, none) :=
  ⟨rfl, readline_not_open_returns_none closedPort (Or.inl rfl),
    readline_not_open_returns_none stalePort (Or.inr ⟨staleHandle, rfl, rfl⟩)⟩

/-- C2: `export_as_json` followed by `import_from_json` is the identity on
every store whose top-level keys are all known sections, and
`import_from_json` on a structure with an unknown top-level key raises
`InvalidSectionsError` (the `ValueError` of the source). -/
theorem export_import_json_roundtrip (m m' m'' : ArduinoCodeManager)
    (j : SectionsDict) (k : String)
    (hm : (dictKeys m.sections).all (fun s => validSections.contains s) = true)
    (hk : k ∈ dictKeys j) (hbad : validSections.contains k = false) :
    ArduinoCodeManager.import_from_json m' (ArduinoCodeManager.export_as_json m) = .ok m ∧
    ArduinoCodeManager.import_from_json m'' j
      = .error (.valueError "Invalid sections in JSON data.") := by
  obtain ⟨ms⟩ := m
  constructor
  · simp only [ArduinoCodeManager.import_from_json, ArduinoCodeManager.export_as_json] at hm ⊢
    rw [if_pos hm]
  · have hcond : ¬ ((dictKeys j).all (fun s => validSections.contains s) = true) := by
      intro hall
      have hkc := List.all_eq_true.mp hall k hk
      rw [hbad] at hkc
      exact Bool.false_ne_true hkc
    simp only [ArduinoCodeManager.import_from_json]
    rw [if_neg hcond]

/-- C2 witness: the round trip at a concrete populated store and the error
at a concrete structure with the unknown key `bogus`. -/
theorem export_import_json_roundtrip_witness :
    ((dictKeys sampleStore.sections).all (fun s => validSections.contains s) = true) ∧
    ("bogus" ∈ dictKeys [("bogus", ([] : CellMap))]) ∧
    (validSections.contains "bogus" = false) ∧
    (ArduinoCodeManager.import_from_json ArduinoCodeManager.defaultManager
        (ArduinoCodeManager.export_as_json sampleStore) = .ok sampleStore ∧
      ArduinoCodeManager.import_from_json ArduinoCodeManager.defaultManager
        [("bogus", ([] : CellMap))]
        = .error (.valueError "Invalid sections in JSON data.")) :=
  ⟨by decide, by decide, by decide,
    export_import_json_roundtrip sampleStore ArduinoCodeManager.defaultManager
      ArduinoCodeManager.defaultManager [("bogus", [])] "bogus"
      (by decide) (by decide) (by decide)⟩

/-- C4: `add_code` raises `UnknownSectionError` (the `ValueError` of the
source) on an unknown section; on a valid section it stores the trimmed text
keyed by the cell id, `get_section` contains it exactly once (when no other
cell of the section holds the same trimmed text), and a second `add_code`
with the same cell id replaces the prior content instead of duplicating. -/
theorem add_code_spec (m : ArduinoCodeManager) (sect bad cid t t2 : String) (cm : CellMap)
    (hbad : dictLookup m.sections bad = none)
    (hs : dictLookup m.sections sect = some cm)
    (hnd : (dictKeys cm).Nodup)
    (hfresh : ∀ kv ∈ cm, kv.1 ≠ cid → kv.2 ≠ pyStrip t) :
    ArduinoCodeManager.add_code m bad cid t
      = .error (.valueError ("Unknown section: " ++ bad)) ∧
    (∃ m1, ArduinoCodeManager.add_code m sect cid t = .ok m1 ∧
      dictLookup m1.sections sect = some (dictInsert cm cid (pyStrip t)) ∧
      dictLookup (dictInsert cm cid (pyStrip t)) cid = some (pyStrip t) ∧
      ArduinoCodeManager.get_section m1 sect
        = .ok ((dictInsert cm cid (pyStrip t)).map Prod.snd) ∧
      ((dictInsert cm cid (pyStrip t)).map Prod.snd).count (pyStrip t) = 1 ∧
      ArduinoCodeManager.add_code m1 sect cid t2
        = ArduinoCodeManager.add_code m sect cid t2) := by
  refine ⟨by simp [ArduinoCodeManager.add_code, hbad], ?_⟩
  refine ⟨⟨dictInsert m.sections sect (dictInsert cm cid (pyStrip t))⟩, ?_, ?_, ?_, ?_, ?_, ?_⟩
  · simp [ArduinoCodeManager.add_code, hs]
  · exact dictLookup_insert_self m.sections sect _
  · exact dictLookup_insert_self cm cid _
  · simp [ArduinoCodeManager.get_section, dictLookup_insert_self]
  · exact count_snd_dictInsert cm cid (pyStrip t) hnd hfresh
  · simp [ArduinoCodeManager.add_code, hs, dictLookup_insert_self, dictInsert_insert]

/-- C4 witness: the unknown-section failure at a concrete store. -/
theorem add_code_spec_witness :
    dictLookup ArduinoCodeManager.defaultManager.sections "bogus" = none ∧
    ArduinoCodeManager.add_code ArduinoCodeManager.defaultManager "bogus" "0" "x"
      = .error (.valueError "Unknown section: bogus") :=
  ⟨by decide,
    (add_code_spec ArduinoCodeManager.defaultManager "globals" "bogus" "0" "x" "y" []
      (by decide) (by decide) (by decide) (by simp)).1⟩

/-- C3 (code bug): at a store with one single-line fragment in every
section, `import_from_code` applied to the text produced by `generate`
raises `FormatError` (the `ValueError` of the source) instead of
reconstructing the fragments: the `#include <Arduino.h>` line that
`generate` always emits first precedes every section marker, and the
line scanner rejects any non-blank, non-brace line seen before a marker. -/
theorem import_from_code_generate_raises :
    (ArduinoCodeManager.generate sampleStore).bind
        (fun txt => ArduinoCodeManager.import_from_code sampleStore txt)
      = .error (.valueError "Code does not contain any section or is incorrectly formatted.") := by
  set_option maxRecDepth 16384 in rfl

end ArduinoColab
